import Mathlib

/-!
Shallow embedding of the video-orchestrator repository
(`schedule_manager.py`, `channel_manager.py`, `inline_selection_handler.py`,
`gdrive_folder_manager.py`, `orchestrator_bot.py`).

Python dict rows become Lean structures, tables become lists of rows, and
the remote-store calls become pure state transformations.  Timestamps are
integers (seconds since the epoch); Python's `total_seconds()/60 < 30` and
`total_seconds()/3600 < 3` comparisons are embedded as the equivalent
integer comparisons against 1800 and 10800 seconds.  Completion
percentages are embedded as rationals.
-/

namespace VideoOrch

/-- Row of the `daily_uploads` table, as selected with the joined
`channels(channel_name)` column.  The four status columns are the
strings used by the source (`pending`, `received`, `processed`,
`completed`, `failed`). -/
structure Upload where
  channel_id : Int
  channel_name : String
  upload_date : String
  video_number : Nat
  script_status : String
  thumbnail_status : String
  video_status : String
  audio_status : String
  script_text : Option String
  script_received_at : Option Int
  thumbnail_gdrive_id : Option String
  thumbnail_gdrive_url : Option String
  video_gdrive_id : Option String
  video_gdrive_url : Option String
  error_message : Option String
  processing_completed_at : Option Int
  updated_at : Option Int
deriving DecidableEq, Repr

/-- Row of the `upload_schedules` table (the columns the reminder and
status code reads). -/
structure ScheduleRow where
  upload_date : String
  last_reminder_sent_at : Option Int
  reminder_type : Option String
  all_complete : Bool
  gdrive_folder_link : Option String
deriving DecidableEq, Repr

/-- Per-channel accumulator built by `ScheduleManager.get_day_status`
(`schedule_manager.py:136-142`). -/
structure ChannelStatus where
  total : Nat
  completed : Nat
  scripts : Nat
  thumbnails : Nat
  missing : List String
deriving DecidableEq, Repr

/-- The result dict of `ScheduleManager.get_day_status`
(`schedule_manager.py:159-172`), restricted to the fields the claims
are about (emoji and the raw row echoes are presentation only). -/
structure DayStatus where
  date : String
  status_text : String
  completion_percentage : ℚ
  total_videos : Nat
  videos_completed : Nat
  scripts_ready : Nat
  thumbnails_ready : Nat
  all_complete : Bool
  channels : List (String × ChannelStatus)
deriving Repr

/-- One element of the list returned by
`ScheduleManager.get_incomplete_items_for_date`
(`schedule_manager.py:251-256`). -/
structure IncompleteItem where
  channel_name : String
  video_number : Nat
  missing : List String
  upload : Upload
deriving DecidableEq, Repr

/-- Row of the `reminder_logs` table (`schedule_manager.py:560-566`). -/
structure ReminderLogEntry where
  reminder_type : String
  upload_date : String
  message_text : String
  incomplete_count : Nat
  channels_mentioned : List String
deriving DecidableEq, Repr

/-- Row of the `gdrive_folders` table as read by
`GDriveFolderManager.archive_old_folders`.  `folder_date` is the day
number (ISO date strings compare like their day numbers). -/
structure FolderRecord where
  folder_id : String
  folder_date : Int
  channel_name : Option String
  video_number : Option Nat
  is_active : Bool
  archived_at : Option Int
deriving DecidableEq, Repr

/-- Row of the `channels` table (the columns the wizard reads). -/
structure Channel where
  id : Int
  channel_name : String
  is_active : Bool
deriving DecidableEq, Repr

/-- The content payload carried by a wizard conversation: either a
script text or a thumbnail (`file_id` plus URL). -/
inductive ContentData where
  | scriptText (text : String)
  | thumbFile (file_id : String) (url : String)
deriving DecidableEq, Repr

/-- One atomic "assign content to slot" commit as attempted by
`InlineSelectionHandler._process_selection` (ensure the slot row
exists, then write the content field) or by one iteration of
`_process_bulk`.  It records the accumulated selection the commit
targets. -/
structure Commit where
  content_type : String
  content : ContentData
  date : Option String
  channel : Option String
  video : Option Nat
deriving DecidableEq, Repr

/-- Per-user wizard state stored in `context.user_data['selections']`
(`inline_selection_handler.py:144-152`). -/
structure SelState where
  content_type : String
  content_data : ContentData
  step : String
  selected_date : Option String
  selected_channel : Option String
  selected_video : Option Nat
deriving DecidableEq, Repr

/-- Per-user bulk state stored in `context.user_data['bulk_selections']`
(`inline_selection_handler.py:386-392`). -/
structure BulkState where
  content_type : String
  items : List ContentData
  step : String
  selected_date : Option String
  selected_channel : Option String
deriving DecidableEq, Repr

/-- The callback-data tokens dispatched by prefix match in
`InlineSelectionHandler.handle_callback` (`date:<iso>`, `channel:<name>`,
`video:<1..4>`, `back_to_date`, `back_to_channel`, `cancel`). -/
inductive CallbackData where
  | cancel
  | back_to_date
  | back_to_channel
  | date (d : String)
  | channel (c : String)
  | video (v : Nat)
deriving DecidableEq, Repr

/-! ## Status aggregation (`schedule_manager.py:106-172`) -/

/-- Embedding of `completion_pct = (videos_completed / total * 100) if total > 0 else 0`
(`schedule_manager.py:112`). -/
def completionPct (videos_completed total : Nat) : ℚ :=
  if total > 0 then (videos_completed : ℚ) / (total : ℚ) * 100 else 0

/-- The status-tier chain of `get_day_status`
(`schedule_manager.py:115-129`). -/
def statusText (pct : ℚ) : String :=
  if pct = 100 then "READY"
  else if 80 ≤ pct then "ALMOST READY"
  else if 50 ≤ pct then "IN PROGRESS"
  else if 0 < pct then "STARTED"
  else "NOT STARTED"

/-- The missing-item labels contributed by one upload row
(`schedule_manager.py:153-157`): a `pending` script and a `pending`
thumbnail each append a labeled entry; no other field contributes. -/
def missingOf (u : Upload) : List String :=
  (if u.script_status = "pending"
    then ["V" ++ toString u.video_number ++ " script"] else []) ++
  (if u.thumbnail_status = "pending"
    then ["V" ++ toString u.video_number ++ " thumbnail"] else [])

/-- Folding one upload row into its channel's accumulator
(`schedule_manager.py:144-157`). -/
def addUpload (cs : ChannelStatus) (u : Upload) : ChannelStatus :=
  { total := cs.total + 1
    completed := cs.completed + (if u.video_status = "completed" then 1 else 0)
    scripts := cs.scripts +
      (if u.script_status = "received" ∨ u.script_status = "processed" then 1 else 0)
    thumbnails := cs.thumbnails + (if u.thumbnail_status = "received" then 1 else 0)
    missing := cs.missing ++ missingOf u }

/-- One iteration of the grouping loop of `get_day_status`
(`schedule_manager.py:133-157`): insert the channel key if absent
(Python dicts keep insertion order), then update its accumulator. -/
def chanStep (acc : List (String × ChannelStatus)) (u : Upload) :
    List (String × ChannelStatus) :=
  let acc' :=
    if acc.any (fun p => p.1 = u.channel_name) then acc
    else acc ++ [(u.channel_name, ⟨0, 0, 0, 0, []⟩)]
  acc'.map (fun p => if p.1 = u.channel_name then (p.1, addUpload p.2 u) else p)

/-- The per-channel breakdown of `get_day_status`. -/
def channelsStatus (uploads : List Upload) : List (String × ChannelStatus) :=
  uploads.foldl chanStep []

/-- Embedding of `ScheduleManager.get_day_status` (`schedule_manager.py:106-172`) as a
function of the rows read for the date: the `daily_uploads` rows and the
(possibly absent) `upload_schedules` row.  `all_complete` is read from
the schedule row with default `False`. -/
def get_day_status (target_date : String) (uploads : List Upload)
    (sched : Option ScheduleRow) : DayStatus :=
  let total := uploads.length
  let videos_completed := (uploads.filter (fun u => u.video_status = "completed")).length
  let scripts_ready := (uploads.filter
    (fun u => u.script_status = "received" ∨ u.script_status = "processed")).length
  let thumbnails_ready := (uploads.filter (fun u => u.thumbnail_status = "received")).length
  let pct := completionPct videos_completed total
  { date := target_date
    status_text := statusText pct
    completion_percentage := pct
    total_videos := total
    videos_completed := videos_completed
    scripts_ready := scripts_ready
    thumbnails_ready := thumbnails_ready
    all_complete := (sched.map (fun s => s.all_complete)).getD false
    channels := channelsStatus uploads }

/-! ## Incomplete items (`schedule_manager.py:221-262`) -/

/-- The `issues` list built for one row
(`schedule_manager.py:241-248`): `script` if the script is pending,
`thumbnail` if the thumbnail is pending, `video` if the video is not
completed.  The audio column is never consulted. -/
def issuesOf (u : Upload) : List String :=
  (if u.script_status = "pending" then ["script"] else []) ++
  (if u.thumbnail_status = "pending" then ["thumbnail"] else []) ++
  (if u.video_status ≠ "completed" then ["video"] else [])

/-- Embedding of `ScheduleManager.get_incomplete_items_for_date`
(`schedule_manager.py:221-262`) as a function of the rows for the date:
a row is kept exactly when its `issues` list is nonempty. -/
def get_incomplete_items_for_date (rows : List Upload) : List IncompleteItem :=
  rows.filterMap (fun u =>
    if issuesOf u = [] then none
    else some ⟨u.channel_name, u.video_number, issuesOf u, u⟩)

/-! ## Reminder policy (`schedule_manager.py:456-581`) -/

/-- Embedding of `ReminderManager.should_send_tomorrow_reminder`
(`schedule_manager.py:463-497`) as a function of the current time, the
`daily_uploads` rows for tomorrow, and tomorrow's `upload_schedules`
row.  `minutes_since < 30` is embedded as `now - last < 1800` seconds. -/
def should_send_tomorrow_reminder (now : Int) (rows : List Upload)
    (sched : Option ScheduleRow) : Bool × List IncompleteItem :=
  let incomplete := get_incomplete_items_for_date rows
  if incomplete = [] then (false, [])
  else
    match sched with
    | some s =>
      match s.last_reminder_sent_at with
      | some last =>
        if now - last < 1800 then (false, incomplete) else (true, incomplete)
      | none => (true, incomplete)
    | none => (true, incomplete)

/-- Modelled from the spec: the `upload_schedules.all_complete` flag is
maintained by remote stored procedures (`create_daily_uploads_skeleton`
and friends) that are not part of this repository; the spec describes it
as "today's aggregate is fully complete", i.e. the date has rows and
every row's video is completed. -/
def storeAllComplete (rows : List Upload) : Bool :=
  !rows.isEmpty && rows.all (fun u => u.video_status = "completed")

/-- Embedding of `ReminderManager.should_send_today_reminder`
(`schedule_manager.py:499-535`) as a function of the current time and
today's rows.  The throttle applies only when the stored marker exists
and its `reminder_type` equals the literal `"ready"`; `hours_since < 3`
is embedded as `now - last < 10800` seconds. -/
def should_send_today_reminder (now : Int) (today : String)
    (uploads : List Upload) (sched : Option ScheduleRow) :
    Bool × Option DayStatus :=
  let status := get_day_status today uploads sched
  if !status.all_complete then (false, none)
  else
    match sched with
    | some s =>
      match s.last_reminder_sent_at, s.reminder_type with
      | some last, some rt =>
        if rt = "ready" then
          if now - last < 10800 then (false, some status) else (true, some status)
        else (true, some status)
      | _, _ => (true, some status)
    | none => (true, some status)

/-- Embedding of `ReminderManager.log_reminder` (`schedule_manager.py:537-581`):
append a row to `reminder_logs` and overwrite `last_reminder_sent_at`
and `reminder_type` on the date's `upload_schedules` row. -/
def log_reminder (now : Int) (reminder_type : String) (upload_date : String)
    (message_text : String) (incomplete_count : Nat)
    (channels_mentioned : List String)
    (schedules : List ScheduleRow) (logs : List ReminderLogEntry) :
    List ScheduleRow × List ReminderLogEntry :=
  (schedules.map (fun s =>
      if s.upload_date = upload_date then
        { s with last_reminder_sent_at := some now,
                 reminder_type := some reminder_type }
      else s),
   logs ++ [⟨reminder_type, upload_date, message_text,
             incomplete_count, channels_mentioned⟩])

/-! ## `daily_uploads` table operations (`channel_manager.py:331-521`) -/

/-- Whether a row has the given (channel, date, video-number) natural key. -/
def keyMatches (channel_id : Int) (upload_date : String) (video_number : Nat)
    (u : Upload) : Bool :=
  u.channel_id = channel_id ∧ u.upload_date = upload_date ∧
    u.video_number = video_number

/-- Embedding of `DailyUploadManager.create_upload_entry`
(`channel_manager.py:337-377`): an upsert on the natural key with the
client library's default merge-duplicates resolution — on conflict the
payload columns (the key plus the four statuses, all `pending`)
overwrite the existing row; otherwise a fresh row is inserted.  The
`channel_name` column is a join artifact of reads and is not part of the
`daily_uploads` payload. -/
def create_upload_entry (channel_id : Int) (upload_date : String)
    (video_number : Nat) (tbl : List Upload) : List Upload :=
  if tbl.any (keyMatches channel_id upload_date video_number) then
    tbl.map (fun u =>
      if keyMatches channel_id upload_date video_number u then
        { u with script_status := "pending", thumbnail_status := "pending",
                 video_status := "pending", audio_status := "pending" }
      else u)
  else
    tbl ++ [{ channel_id := channel_id, channel_name := "",
              upload_date := upload_date, video_number := video_number,
              script_status := "pending", thumbnail_status := "pending",
              video_status := "pending", audio_status := "pending",
              script_text := none, script_received_at := none,
              thumbnail_gdrive_id := none, thumbnail_gdrive_url := none,
              video_gdrive_id := none, video_gdrive_url := none,
              error_message := none, processing_completed_at := none,
              updated_at := none }]

/-- Embedding of `DailyUploadManager.update_script` (`channel_manager.py:379-405`):
set the script text, status and timestamps on the keyed row; every other
column is untouched. -/
def update_script (channel_id : Int) (upload_date : String)
    (video_number : Nat) (script_text : String) (now : Int)
    (tbl : List Upload) : List Upload :=
  tbl.map (fun u =>
    if keyMatches channel_id upload_date video_number u then
      { u with script_text := some script_text, script_status := "received",
               script_received_at := some now, updated_at := some now }
    else u)

/-- Embedding of `DailyUploadManager.update_thumbnail` (`channel_manager.py:407-434`). -/
def update_thumbnail (channel_id : Int) (upload_date : String)
    (video_number : Nat) (gdrive_id gdrive_url : String) (now : Int)
    (tbl : List Upload) : List Upload :=
  tbl.map (fun u =>
    if keyMatches channel_id upload_date video_number u then
      { u with thumbnail_gdrive_id := some gdrive_id,
               thumbnail_gdrive_url := some gdrive_url,
               thumbnail_status := "received", updated_at := some now }
    else u)

/-- Embedding of `DailyUploadManager.update_video_status`
(`channel_manager.py:436-473`): the optional columns are written only
when the corresponding argument is provided (truthy), and
`processing_completed_at` only when the new status is `completed`. -/
def update_video_status (channel_id : Int) (upload_date : String)
    (video_number : Nat) (status : String)
    (video_gdrive_id video_gdrive_url error_message : Option String)
    (now : Int) (tbl : List Upload) : List Upload :=
  tbl.map (fun u =>
    if keyMatches channel_id upload_date video_number u then
      { u with video_status := status, updated_at := some now,
               video_gdrive_id := match video_gdrive_id with
                 | some x => some x
                 | none => u.video_gdrive_id,
               video_gdrive_url := match video_gdrive_url with
                 | some x => some x
                 | none => u.video_gdrive_url,
               error_message := match error_message with
                 | some e => some e
                 | none => u.error_message,
               processing_completed_at :=
                 if status = "completed" then some now
                 else u.processing_completed_at }
    else u)

/-! ## Selection wizard (`inline_selection_handler.py:118-353`) -/

/-- The fresh per-user state written by
`InlineSelectionHandler.start_selection`
(`inline_selection_handler.py:144-152`). -/
def start_state (content_type : String) (content_data : ContentData) : SelState :=
  { content_type := content_type, content_data := content_data,
    step := "date", selected_date := none, selected_channel := none,
    selected_video := none }

/-- Embedding of `InlineSelectionHandler._process_selection`
(`inline_selection_handler.py:287-353`): one atomic
"assign content to slot" commit of the accumulated selection.  The
`oracle` abstracts the remote store (whether the keyed writes succeed);
a missing channel fails the commit before any write.  The attempted
commit is returned alongside the success flag; the state is the
caller's to discard. -/
def process_selection (channels : List Channel) (oracle : Commit → Bool)
    (s : SelState) : Bool × List Commit :=
  let cm : Commit := ⟨s.content_type, s.content_data, s.selected_date,
                      s.selected_channel, s.selected_video⟩
  let ok :=
    match channels.find? (fun ch => some ch.channel_name = s.selected_channel) with
    | some _ => oracle cm
    | none => false
  (ok, [cm])

/-- Embedding of `InlineSelectionHandler.handle_callback`
(`inline_selection_handler.py:175-285`), as a transition on the user's
optional wizard state.  Returns the new state, the commits attempted,
and the handler's boolean result.  A missing state is the terminal
"Selection expired" path; `cancel` deletes the state with no commit;
the two back tokens step back and clear exactly the later selection;
a date or channel token records the choice and advances; a video token
completes the selection, runs `_process_selection` once, and deletes
the state whether or not the commit succeeded. -/
def handle_callback (channels : List Channel) (oracle : Commit → Bool)
    (st : Option SelState) (data : CallbackData) :
    Option SelState × List Commit × Bool :=
  match st with
  | none => (none, [], false)
  | some s =>
    match data with
    | CallbackData.cancel => (none, [], true)
    | CallbackData.back_to_date =>
        (some { s with step := "date", selected_channel := none }, [], true)
    | CallbackData.back_to_channel =>
        (some { s with step := "channel", selected_video := none }, [], true)
    | CallbackData.date d =>
        (some { s with selected_date := some d, step := "channel" }, [], true)
    | CallbackData.channel c =>
        (some { s with selected_channel := some c, step := "video" }, [], true)
    | CallbackData.video v =>
        let s' := { s with selected_video := some v }
        let r := process_selection channels oracle s'
        (none, r.2, true)

/-- Run a sequence of callbacks through `handle_callback`, collecting
every commit attempted along the way. -/
def run_callbacks (channels : List Channel) (oracle : Commit → Bool) :
    Option SelState → List CallbackData → Option SelState × List Commit
  | st, [] => (st, [])
  | st, d :: rest =>
      let r := handle_callback channels oracle st d
      let r' := run_callbacks channels oracle r.1 rest
      (r'.1, r.2.1 ++ r'.2)

/-- The non-terminal wizard inputs: forward selections and back
transitions (everything except `cancel` and a video-slot pick). -/
def nonterminal : CallbackData → Bool
  | CallbackData.cancel => false
  | CallbackData.video _ => false
  | _ => true

/-! ## Bulk assignment (`inline_selection_handler.py:406-518`) -/

/-- The loop body of `InlineSelectionHandler._process_bulk`
(`inline_selection_handler.py:481-512`): item `i` (0-based) is
committed to slot `i+1`; an exception (oracle `false`) is caught and
the item skipped; the success counter counts the items whose commit
succeeded. -/
def bulk_loop (oracle : Nat → Bool) (content_type : String)
    (d ch : Option String) : Nat → List ContentData → Nat × List Commit
  | _, [] => (0, [])
  | i, item :: rest =>
      let cm : Commit := ⟨content_type, item, d, ch, some (i + 1)⟩
      let r := bulk_loop oracle content_type d ch (i + 1) rest
      ((if oracle i then 1 else 0) + r.1, cm :: r.2)

/-- Embedding of `InlineSelectionHandler._process_bulk`
(`inline_selection_handler.py:464-518`): look the channel up, then
auto-assign the first four submitted items (`items[:4]`) to slots 1..4
in order; returns the success count and the commits attempted. -/
def process_bulk (channels : List Channel) (oracle : Nat → Bool)
    (st : BulkState) : Nat × List Commit :=
  match channels.find? (fun c => some c.channel_name = st.selected_channel) with
  | none => (0, [])
  | some _ =>
      bulk_loop oracle st.content_type st.selected_date st.selected_channel 0
        (st.items.take 4)

/-! ## Folder archiving (`gdrive_folder_manager.py:569-594`) -/

/-- The update payload of `archive_old_folders`
(`gdrive_folder_manager.py:582-585`), i.e.
`{'is_active': False, 'archived_at': datetime.utcnow().isoformat()}`.
The module imports only `date` and `timedelta` from `datetime`
(`gdrive_folder_manager.py:8`); the name `datetime` is unbound, so
evaluating `datetime.utcnow()` while building this payload raises
`NameError` unconditionally, before the remote update is issued. -/
def archivePayload : Except String (Bool × Int) :=
  Except.error "NameError: name 'datetime' is not defined"

/-- Embedding of `GDriveFolderManager.archive_old_folders`
(`gdrive_folder_manager.py:569-594`): compute the cutoff date, build
the update payload, and run the filtered update on the
`gdrive_folders` table, returning the updated-row count.  Building the
payload raises (see `archivePayload`); the `except` handler
(`gdrive_folder_manager.py:592-594`) catches the error and returns 0,
so the table is never touched. -/
def archive_old_folders (today : Int) (days_old : Int)
    (records : List FolderRecord) : List FolderRecord × Nat :=
  let cutoff := today - days_old
  match archivePayload with
  | Except.error _ => (records, 0)
  | Except.ok (act, ts) =>
      let pred := fun (r : FolderRecord) => r.folder_date < cutoff ∧ r.is_active
      (records.map (fun r =>
          if pred r then { r with is_active := act, archived_at := some ts }
          else r),
       (records.filter pred).length)

/-! ## Theorems -/

/-- C2: the status tier computed by `get_day_status` is a total step
function of the completion percentage: 100 → READY, [80,100) →
ALMOST READY, [50,80) → IN PROGRESS, (0,50) → STARTED, 0 →
NOT STARTED; every percentage yields one of the five tiers, and a date
with zero upload rows yields percentage 0 and NOT STARTED rather than
an error. -/
theorem c2_status_tier_step_function :
    (∀ p : ℚ,
      (p = 100 → statusText p = "READY") ∧
      (80 ≤ p ∧ p < 100 → statusText p = "ALMOST READY") ∧
      (50 ≤ p ∧ p < 80 → statusText p = "IN PROGRESS") ∧
      (0 < p ∧ p < 50 → statusText p = "STARTED") ∧
      (p = 0 → statusText p = "NOT STARTED") ∧
      (statusText p = "READY" ∨ statusText p = "ALMOST READY" ∨
        statusText p = "IN PROGRESS" ∨ statusText p = "STARTED" ∨
        statusText p = "NOT STARTED")) ∧
    (∀ (d : String) (sch : Option ScheduleRow),
      (get_day_status d [] sch).completion_percentage = 0 ∧
      (get_day_status d [] sch).status_text = "NOT STARTED") := by
  constructor
  · intro p
    refine ⟨fun h => ?_, fun h => ?_, fun h => ?_, fun h => ?_, fun h => ?_, ?_⟩
    · subst h; decide
    · have hne : p ≠ 100 := ne_of_lt h.2
      simp [statusText, hne, h.1]
    · have hne : p ≠ 100 := by intro hq; rw [hq] at h; exact absurd h.2 (by norm_num)
      have h80 : ¬ (80 : ℚ) ≤ p := not_le.mpr h.2
      simp [statusText, hne, h80, h.1]
    · have hne : p ≠ 100 := by intro hq; rw [hq] at h; exact absurd h.2 (by norm_num)
      have h80 : ¬ (80 : ℚ) ≤ p := not_le.mpr (lt_trans h.2 (by norm_num))
      have h50 : ¬ (50 : ℚ) ≤ p := not_le.mpr h.2
      simp [statusText, hne, h80, h50, h.1]
    · subst h; decide
    · unfold statusText
      split_ifs <;> simp
  · intro d sch
    refine ⟨?_, ?_⟩
    · simp [get_day_status, completionPct]
    · norm_num [get_day_status, completionPct, statusText]

/-- Witness for C2: a percentage of 90 lands in the ALMOST READY
bucket. -/
theorem c2_status_tier_step_function_witness :
    statusText (90 : ℚ) = "ALMOST READY" :=
  (c2_status_tier_step_function.1 90).2.1 (by norm_num)

/-- The script label and the thumbnail label for the same slot are
distinct strings. -/
theorem script_label_ne_thumbnail_label (x : String) :
    "V" ++ x ++ " script" ≠ "V" ++ x ++ " thumbnail" := by
  intro h
  have hl := congrArg String.length h
  simp only [String.length_append] at hl
  have h7 : String.length " script" = 7 := by decide
  have h10 : String.length " thumbnail" = 10 := by decide
  rw [h7, h10] at hl
  omega

/-- The slot of end-to-end scenario 1: (ChannelX, 2025-01-21, 2) with
script pending, thumbnail received, video pending. -/
def slotChannelX : Upload :=
  { channel_id := 1, channel_name := "ChannelX", upload_date := "2025-01-21",
    video_number := 2, script_status := "pending",
    thumbnail_status := "received", video_status := "pending",
    audio_status := "pending", script_text := none,
    script_received_at := none, thumbnail_gdrive_id := none,
    thumbnail_gdrive_url := none, video_gdrive_id := none,
    video_gdrive_url := none, error_message := none,
    processing_completed_at := none, updated_at := none }

/-- C6: in the per-channel breakdown of `get_day_status`, a pending
script or thumbnail field contributes its labeled missing entry (and a
non-pending one contributes none), a slot is counted in the channel's
total regardless of its video status, and the scenario slot
(ChannelX, 2025-01-21, 2) with script pending, thumbnail received and
video pending yields exactly the missing entry "V2 script" under
ChannelX. -/
theorem c6_missing_items_per_slot :
    (∀ u : Upload,
      (("V" ++ toString u.video_number ++ " script") ∈ missingOf u ↔
        u.script_status = "pending") ∧
      (("V" ++ toString u.video_number ++ " thumbnail") ∈ missingOf u ↔
        u.thumbnail_status = "pending")) ∧
    (∀ (cs : ChannelStatus) (u : Upload),
      (addUpload cs u).total = cs.total + 1 ∧
      (addUpload cs u).missing = cs.missing ++ missingOf u) ∧
    (get_day_status "2025-01-21" [slotChannelX] none).channels =
      [("ChannelX", ⟨1, 0, 0, 1, ["V2 script"]⟩)] := by
  refine ⟨?_, ?_, ?_⟩
  · intro u
    constructor
    · by_cases hs : u.script_status = "pending" <;>
        by_cases ht : u.thumbnail_status = "pending" <;>
        simp [missingOf, hs, ht, script_label_ne_thumbnail_label]
    · have hne : "V" ++ toString u.video_number ++ " thumbnail" ≠
          "V" ++ toString u.video_number ++ " script" :=
        fun h => script_label_ne_thumbnail_label (toString u.video_number) h.symm
      by_cases hs : u.script_status = "pending" <;>
        by_cases ht : u.thumbnail_status = "pending" <;>
        simp [missingOf, hs, ht, hne]
  · intro cs u
    exact ⟨rfl, rfl⟩
  · decide

/-- The manual-override write of the audio column: a row with its
`audio_status` replaced. -/
def setAudio (a : String) (u : Upload) : Upload := { u with audio_status := a }

/-- The part of an incomplete item the reminder message uses: which
slot it is and which fields are listed missing. -/
def itemView (it : IncompleteItem) : String × Nat × List String :=
  (it.channel_name, it.video_number, it.missing)

/-- A row's `issues` list is nonempty exactly when its script is
pending, its thumbnail is pending, or its video is not completed. -/
theorem issuesOf_ne_nil (u : Upload) :
    issuesOf u ≠ [] ↔
      (u.script_status = "pending" ∨ u.thumbnail_status = "pending" ∨
        u.video_status ≠ "completed") := by
  by_cases hs : u.script_status = "pending" <;>
    by_cases ht : u.thumbnail_status = "pending" <;>
    by_cases hv : u.video_status = "completed" <;>
    simp [issuesOf, hs, ht, hv]

/-- C10: a row is included among the incomplete items for a date
exactly when its script is pending, its thumbnail is pending, or its
video is not completed; the audio column affects neither which slots
are reported nor which fields are listed missing. -/
theorem c10_incomplete_iff_and_audio_irrelevant :
    (∀ (rows : List Upload) (u : Upload),
      (∃ it ∈ get_incomplete_items_for_date rows, it.upload = u) ↔
        u ∈ rows ∧ (u.script_status = "pending" ∨
          u.thumbnail_status = "pending" ∨ u.video_status ≠ "completed")) ∧
    (∀ (rows : List Upload) (a : String),
      (get_incomplete_items_for_date (rows.map (setAudio a))).map itemView =
        (get_incomplete_items_for_date rows).map itemView) ∧
    (∀ (u : Upload) (a : String), issuesOf (setAudio a u) = issuesOf u) := by
  have haud : ∀ (u : Upload) (a : String), issuesOf (setAudio a u) = issuesOf u := by
    intro u a; simp [issuesOf, setAudio]
  refine ⟨?_, ?_, haud⟩
  · intro rows u
    constructor
    · rintro ⟨it, hmem, hup⟩
      rw [get_incomplete_items_for_date, List.mem_filterMap] at hmem
      obtain ⟨x, hx, hfx⟩ := hmem
      by_cases hi : issuesOf x = []
      · rw [if_pos hi] at hfx; exact absurd hfx (by simp)
      · rw [if_neg hi] at hfx
        have hxu : x = u := by
          have := congrArg IncompleteItem.upload (Option.some.inj hfx)
          simpa [hup] using this
        subst hxu
        exact ⟨hx, (issuesOf_ne_nil x).mp hi⟩
    · rintro ⟨hmem, hcond⟩
      refine ⟨⟨u.channel_name, u.video_number, issuesOf u, u⟩, ?_, rfl⟩
      rw [get_incomplete_items_for_date, List.mem_filterMap]
      exact ⟨u, hmem, by rw [if_neg ((issuesOf_ne_nil u).mpr hcond)]⟩
  · intro rows a
    induction rows with
    | nil => rfl
    | cons u rest ih =>
      rw [List.map_cons, get_incomplete_items_for_date,
        get_incomplete_items_for_date, List.filterMap_cons, List.filterMap_cons,
        haud u a]
      by_cases hi : issuesOf u = []
      · rw [if_pos hi, if_pos hi]
        exact ih
      · rw [if_neg hi, if_neg hi, List.map_cons, List.map_cons]
        rw [get_incomplete_items_for_date, get_incomplete_items_for_date] at ih
        rw [ih]
        simp [itemView, setAudio, haud u a]

/-- C7: the tomorrow-incomplete check fires only if tomorrow has at
least one slot with an outstanding field, and given outstanding items
and a last-reminder marker at time `last`, an evaluation strictly
before `last + 30min` does not fire while an evaluation strictly after
`last + 30min` fires. -/
theorem c7_tomorrow_reminder_throttle :
    ∀ (now last : Int) (rows : List Upload) (sched : Option ScheduleRow)
      (s : ScheduleRow),
      ((should_send_tomorrow_reminder now rows sched).1 = true →
        get_incomplete_items_for_date rows ≠ []) ∧
      (get_incomplete_items_for_date rows ≠ [] →
        s.last_reminder_sent_at = some last →
        ((now < last + 1800 →
            (should_send_tomorrow_reminder now rows (some s)).1 = false) ∧
         (now > last + 1800 →
            (should_send_tomorrow_reminder now rows (some s)).1 = true))) := by
  intro now last rows sched s
  constructor
  · intro hfire
    by_contra h
    simp [should_send_tomorrow_reminder, h] at hfire
  · intro hne hlast
    constructor
    · intro hlt
      have hc : now - last < 1800 := by omega
      simp [should_send_tomorrow_reminder, hne, hlast, hc]
    · intro hgt
      have hc : ¬ (now - last < 1800) := by omega
      simp [should_send_tomorrow_reminder, hne, hlast, hc]

/-- Witness for C7: with one incomplete slot for tomorrow and a marker
at time 0, the check at 1000 s (before the 30-minute window) does not
fire and the check at 2000 s (after it) fires. -/
theorem c7_tomorrow_reminder_throttle_witness :
    (should_send_tomorrow_reminder 1000 [slotChannelX]
      (some ⟨"2025-01-22", some 0, some "tomorrow_incomplete", false, none⟩)).1
      = false ∧
    (should_send_tomorrow_reminder 2000 [slotChannelX]
      (some ⟨"2025-01-22", some 0, some "tomorrow_incomplete", false, none⟩)).1
      = true :=
  ⟨((c7_tomorrow_reminder_throttle 1000 0 [slotChannelX] none
      ⟨"2025-01-22", some 0, some "tomorrow_incomplete", false, none⟩).2
      (by decide) rfl).1 (by decide),
   ((c7_tomorrow_reminder_throttle 2000 0 [slotChannelX] none
      ⟨"2025-01-22", some 0, some "tomorrow_incomplete", false, none⟩).2
      (by decide) rfl).2 (by decide)⟩

/-- C9 (observed divergence): `archive_old_folders` never archives
anything — building its update payload evaluates `datetime.utcnow()`
while the module imports only `date` and `timedelta` from `datetime`
(`gdrive_folder_manager.py:8`), so a `NameError` is raised before the
filtered update runs, the `except` handler swallows it, and every call
returns 0 with every record untouched; in particular an active record
dated day 50 survives a run on day 100 with a 7-day threshold, where
the claim requires it to be marked inactive and the call to return 1. -/
theorem c9_archive_old_folders_never_archives :
    (∀ (today days_old : Int) (records : List FolderRecord),
      archive_old_folders today days_old records = (records, 0)) ∧
    archive_old_folders 100 7 [⟨"fid1", 50, none, none, true, none⟩] =
      ([⟨"fid1", 50, none, none, true, none⟩], 0) :=
  ⟨fun _ _ _ => rfl, rfl⟩

/-- Splitting `run_callbacks` over list append: the commits of the whole
run are the commits of the first part followed by those of the second,
started from the first part's final state. -/
theorem run_callbacks_append (channels : List Channel) (oracle : Commit → Bool)
    (st : Option SelState) (l1 l2 : List CallbackData) :
    run_callbacks channels oracle st (l1 ++ l2) =
      ((run_callbacks channels oracle
          (run_callbacks channels oracle st l1).1 l2).1,
       (run_callbacks channels oracle st l1).2 ++
         (run_callbacks channels oracle
           (run_callbacks channels oracle st l1).1 l2).2) := by
  induction l1 generalizing st with
  | nil => simp [run_callbacks]
  | cons d rest ih => simp [run_callbacks, ih, List.append_assoc]

/-- A non-terminal input on a live state keeps a live state and attempts
no commit. -/
theorem handle_nonterminal (channels : List Channel) (oracle : Commit → Bool)
    (s : SelState) (d : CallbackData) (h : nonterminal d = true) :
    ∃ s', handle_callback channels oracle (some s) d = (some s', [], true) := by
  cases d with
  | cancel => simp [nonterminal] at h
  | video v => simp [nonterminal] at h
  | back_to_date => exact ⟨_, rfl⟩
  | back_to_channel => exact ⟨_, rfl⟩
  | date dd => exact ⟨_, rfl⟩
  | channel c => exact ⟨_, rfl⟩

/-- Running only non-terminal inputs keeps the state live and attempts
no commit. -/
theorem run_nonterminal (channels : List Channel) (oracle : Commit → Bool)
    (pre : List CallbackData) (h : ∀ d ∈ pre, nonterminal d = true) :
    ∀ s : SelState, ∃ s',
      run_callbacks channels oracle (some s) pre = (some s', []) := by
  induction pre with
  | nil => intro s; exact ⟨s, rfl⟩
  | cons d rest ih =>
    intro s
    obtain ⟨s1, hs1⟩ :=
      handle_nonterminal channels oracle s d (h d (by simp))
    obtain ⟨s2, hs2⟩ := ih (fun x hx => h x (by simp [hx])) s1
    exact ⟨s2, by simp [run_callbacks, hs1, hs2]⟩

/-- C3: from a freshly started (or any live) selection state, a
sequence of forward/back inputs ending in `cancel` attempts zero
commits and deletes the state, while the same sequence ending in a
video-slot pick attempts exactly one commit and deletes the state —
whatever the store oracle answers, i.e. whether the commit succeeds or
fails. -/
theorem c3_wizard_commit_invariant :
    ∀ (channels : List Channel) (oracle : Commit → Bool) (s : SelState)
      (pre : List CallbackData), (∀ d ∈ pre, nonterminal d = true) →
      ((run_callbacks channels oracle (some s)
          (pre ++ [CallbackData.cancel])).2 = [] ∧
       (run_callbacks channels oracle (some s)
          (pre ++ [CallbackData.cancel])).1 = none) ∧
      (∀ v : Nat,
        (run_callbacks channels oracle (some s)
          (pre ++ [CallbackData.video v])).2.length = 1 ∧
        (run_callbacks channels oracle (some s)
          (pre ++ [CallbackData.video v])).1 = none) := by
  intro channels oracle s pre hpre
  obtain ⟨s', hs'⟩ := run_nonterminal channels oracle pre hpre s
  refine ⟨⟨?_, ?_⟩, fun v => ⟨?_, ?_⟩⟩ <;>
    simp [run_callbacks_append, hs', run_callbacks, handle_callback,
      process_selection]

/-- Witness for C3: a date pick then a channel pick followed by
`cancel` yields no commit; followed by a video pick it yields exactly
one. -/
theorem c3_wizard_commit_invariant_witness :
    (run_callbacks [⟨1, "GYH", true⟩] (fun _ => true)
      (some (start_state "script" (ContentData.scriptText "hi")))
      ([CallbackData.date "2025-01-21", CallbackData.channel "GYH"] ++
        [CallbackData.cancel])).2 = [] ∧
    (run_callbacks [⟨1, "GYH", true⟩] (fun _ => true)
      (some (start_state "script" (ContentData.scriptText "hi")))
      ([CallbackData.date "2025-01-21", CallbackData.channel "GYH"] ++
        [CallbackData.video 3])).2.length = 1 :=
  ⟨(c3_wizard_commit_invariant [⟨1, "GYH", true⟩] (fun _ => true)
      (start_state "script" (ContentData.scriptText "hi"))
      [CallbackData.date "2025-01-21", CallbackData.channel "GYH"]
      (by decide)).1.1,
   ((c3_wizard_commit_invariant [⟨1, "GYH", true⟩] (fun _ => true)
      (start_state "script" (ContentData.scriptText "hi"))
      [CallbackData.date "2025-01-21", CallbackData.channel "GYH"]
      (by decide)).2 3).1⟩

/-- C8: `back_to_date` clears only the chosen channel (content payload
and chosen date survive) and `back_to_channel` clears only the chosen
video slot (date and channel survive), with no commit; consequently the
sequence date 2025-01-21, channel BI, back_to_channel, channel GYH,
video 3 commits to (2025-01-21, GYH, slot 3), not BI. -/
theorem c8_back_moves_one_step :
    (∀ (channels : List Channel) (oracle : Commit → Bool) (s : SelState),
      ∃ s', handle_callback channels oracle (some s)
          CallbackData.back_to_date = (some s', [], true) ∧
        s'.selected_channel = none ∧ s'.step = "date" ∧
        s'.content_type = s.content_type ∧
        s'.content_data = s.content_data ∧
        s'.selected_date = s.selected_date) ∧
    (∀ (channels : List Channel) (oracle : Commit → Bool) (s : SelState),
      ∃ s', handle_callback channels oracle (some s)
          CallbackData.back_to_channel = (some s', [], true) ∧
        s'.selected_video = none ∧ s'.step = "channel" ∧
        s'.content_type = s.content_type ∧
        s'.content_data = s.content_data ∧
        s'.selected_date = s.selected_date ∧
        s'.selected_channel = s.selected_channel) ∧
    (∀ (channels : List Channel) (oracle : Commit → Bool)
      (ct : String) (cd : ContentData),
      run_callbacks channels oracle (some (start_state ct cd))
        [CallbackData.date "2025-01-21", CallbackData.channel "BI",
         CallbackData.back_to_channel, CallbackData.channel "GYH",
         CallbackData.video 3] =
        (none, [⟨ct, cd, some "2025-01-21", some "GYH", some 3⟩])) := by
  refine ⟨?_, ?_, ?_⟩
  · intro channels oracle s
    exact ⟨_, rfl, rfl, rfl, rfl, rfl, rfl⟩
  · intro channels oracle s
    exact ⟨_, rfl, rfl, rfl, rfl, rfl, rfl, rfl⟩
  · intro channels oracle ct cd
    simp [run_callbacks, handle_callback, process_selection, start_state]

/-- The bulk loop attempts one commit per item handed to it. -/
theorem bulk_loop_length (oracle : Nat → Bool) (ct : String)
    (d ch : Option String) :
    ∀ (i : Nat) (items : List ContentData),
      (bulk_loop oracle ct d ch i items).2.length = items.length := by
  intro i items
  induction items generalizing i with
  | nil => rfl
  | cons a t ih => simp [bulk_loop, ih]

/-- The bulk loop's success count never exceeds the number of items
handed to it. -/
theorem bulk_loop_count_le (oracle : Nat → Bool) (ct : String)
    (d ch : Option String) :
    ∀ (i : Nat) (items : List ContentData),
      (bulk_loop oracle ct d ch i items).1 ≤ items.length := by
  intro i items
  induction items generalizing i with
  | nil => exact Nat.le_refl 0
  | cons a t ih =>
    simp only [bulk_loop, List.length_cons]
    have := ih (i + 1)
    by_cases h : oracle i <;> simp [h] <;> omega

/-- The `j`-th commit attempted by the bulk loop started at counter `i`
assigns the `j`-th item to slot `i + j + 1`. -/
theorem bulk_loop_get (oracle : Nat → Bool) (ct : String)
    (d ch : Option String) :
    ∀ (items : List ContentData) (i j : Nat),
      ((bulk_loop oracle ct d ch i items).2)[j]? =
        (items[j]?).map (fun item => ⟨ct, item, d, ch, some (i + j + 1)⟩) := by
  intro items
  induction items with
  | nil => intro i j; simp [bulk_loop]
  | cons a t ih =>
    intro i j
    cases j with
    | zero => simp [bulk_loop]
    | succ j' =>
      simp only [bulk_loop, List.getElem?_cons_succ]
      rw [ih (i + 1) j']
      have : i + 1 + j' + 1 = i + (j' + 1) + 1 := by omega
      rw [this]

/-- C4: with the chosen channel existing, bulk assignment attempts
exactly `min K 4` per-item commits, assigns the `j`-th submitted item
(0-based) to slot `j+1` with the chosen date and channel, and the
success count never exceeds the number of attempted items (items
beyond slot 4 are dropped by the `min`). -/
theorem c4_bulk_assignment :
    ∀ (channels : List Channel) (oracle : Nat → Bool) (st : BulkState)
      (ch : Channel),
      channels.find? (fun c => some c.channel_name = st.selected_channel) =
        some ch →
      (process_bulk channels oracle st).2.length = min st.items.length 4 ∧
      (∀ (j : Nat) (cm : Commit),
        ((process_bulk channels oracle st).2)[j]? = some cm →
          cm.video = some (j + 1) ∧ st.items[j]? = some cm.content ∧
          cm.date = st.selected_date ∧ cm.channel = st.selected_channel ∧
          cm.content_type = st.content_type) ∧
      (process_bulk channels oracle st).1 ≤
        (process_bulk channels oracle st).2.length := by
  intro channels oracle st ch hch
  unfold process_bulk
  rw [hch]
  refine ⟨?_, ?_, ?_⟩
  · rw [bulk_loop_length, List.length_take, Nat.min_comm]
  · intro j cm hcm
    rw [bulk_loop_get] at hcm
    cases hitem : (st.items.take 4)[j]? with
    | none => rw [hitem] at hcm; simp at hcm
    | some item =>
      rw [hitem] at hcm
      simp only [Option.map_some'] at hcm
      have hj4 : j < 4 := by
        have hlt := List.getElem?_eq_some.mp hitem
        have := hlt.1
        rw [List.length_take] at this
        omega
      have hitems : st.items[j]? = some item := by
        rw [← List.getElem?_take_of_lt hj4, hitem]
      cases hcm
      exact ⟨by simp, by simpa using hitems, rfl, rfl, rfl⟩
  · rw [bulk_loop_length]
    exact bulk_loop_count_le oracle st.content_type st.selected_date
      st.selected_channel 0 (st.items.take 4)

/-- Witness for C4: six submitted scripts for channel GYH produce
exactly four commit attempts, the third targeting slot 3, with the
success count bounded by the attempts even when one item's commit
fails. -/
theorem c4_bulk_assignment_witness :
    (process_bulk [⟨1, "GYH", true⟩] (fun i => decide (i ≠ 2))
      ⟨"script",
        [ContentData.scriptText "a", ContentData.scriptText "b",
         ContentData.scriptText "c", ContentData.scriptText "d",
         ContentData.scriptText "e", ContentData.scriptText "f"],
        "channel", some "2025-01-21", some "GYH"⟩).2.length = min 6 4 ∧
    (process_bulk [⟨1, "GYH", true⟩] (fun i => decide (i ≠ 2))
      ⟨"script",
        [ContentData.scriptText "a", ContentData.scriptText "b",
         ContentData.scriptText "c", ContentData.scriptText "d",
         ContentData.scriptText "e", ContentData.scriptText "f"],
        "channel", some "2025-01-21", some "GYH"⟩).1 ≤
      (process_bulk [⟨1, "GYH", true⟩] (fun i => decide (i ≠ 2))
        ⟨"script",
          [ContentData.scriptText "a", ContentData.scriptText "b",
           ContentData.scriptText "c", ContentData.scriptText "d",
           ContentData.scriptText "e", ContentData.scriptText "f"],
          "channel", some "2025-01-21", some "GYH"⟩).2.length :=
  ⟨(c4_bulk_assignment [⟨1, "GYH", true⟩] (fun i => decide (i ≠ 2))
      ⟨"script",
        [ContentData.scriptText "a", ContentData.scriptText "b",
         ContentData.scriptText "c", ContentData.scriptText "d",
         ContentData.scriptText "e", ContentData.scriptText "f"],
        "channel", some "2025-01-21", some "GYH"⟩ ⟨1, "GYH", true⟩ rfl).1,
   (c4_bulk_assignment [⟨1, "GYH", true⟩] (fun i => decide (i ≠ 2))
      ⟨"script",
        [ContentData.scriptText "a", ContentData.scriptText "b",
         ContentData.scriptText "c", ContentData.scriptText "d",
         ContentData.scriptText "e", ContentData.scriptText "f"],
        "channel", some "2025-01-21", some "GYH"⟩ ⟨1, "GYH", true⟩ rfl).2.2⟩

/-- A fully completed slot for ChannelX on 2025-01-21. -/
def completedSlot (n : Nat) : Upload :=
  { channel_id := 1, channel_name := "ChannelX", upload_date := "2025-01-21",
    video_number := n, script_status := "processed",
    thumbnail_status := "received", video_status := "completed",
    audio_status := "completed", script_text := some "s",
    script_received_at := some 100, thumbnail_gdrive_id := some "t",
    thumbnail_gdrive_url := some "tu", video_gdrive_id := some "v",
    video_gdrive_url := some "vu", error_message := none,
    processing_completed_at := some 200, updated_at := some 200 }

/-- All four slots of the single active channel for 2025-01-21, all
with video completed. -/
def todayUploads : List Upload :=
  [completedSlot 1, completedSlot 2, completedSlot 3, completedSlot 4]

/-- Today's schedule row before any reminder: no marker, and the
store-maintained `all_complete` flag for the fully completed day. -/
def todaySched : ScheduleRow :=
  { upload_date := "2025-01-21", last_reminder_sent_at := none,
    reminder_type := none, all_complete := storeAllComplete todayUploads,
    gdrive_folder_link := none }

/-- C1 (observed divergence): with every slot's video completed and no
prior marker the first evaluation fires, and `log_reminder` then
overwrites the marker; but the today-ready job records the type string
`today_ready` (`orchestrator_bot.py:462`) while the throttle in
`should_send_today_reminder` only engages when the stored type equals
`ready` (`schedule_manager.py:522`), so an evaluation 60 seconds after
the send still fires — the claimed 3-hour suppression holds only for
the type string `ready`, which no caller writes. -/
theorem c1_today_reminder_throttle_bug :
    (should_send_today_reminder 1000 "2025-01-21" todayUploads
      (some todaySched)).1 = true ∧
    (log_reminder 1000 "today_ready" "2025-01-21" "msg" 0 []
      [todaySched] []).1 =
      [{ todaySched with last_reminder_sent_at := some 1000,
                         reminder_type := some "today_ready" }] ∧
    (should_send_today_reminder 1060 "2025-01-21" todayUploads
      (some { todaySched with last_reminder_sent_at := some 1000,
                              reminder_type := some "today_ready" })).1
      = true ∧
    (should_send_today_reminder 1060 "2025-01-21" todayUploads
      (some { todaySched with last_reminder_sent_at := some 1000,
                              reminder_type := some "ready" })).1
      = false := by
  refine ⟨?_, ?_, ?_, ?_⟩ <;> decide

/-- An upload row whose script and thumbnail have already been
received, with content pointers attached. -/
def existingRow : Upload :=
  { channel_id := 1, channel_name := "ChannelX", upload_date := "2025-01-21",
    video_number := 1, script_status := "received",
    thumbnail_status := "received", video_status := "pending",
    audio_status := "pending", script_text := some "draft",
    script_received_at := some 500, thumbnail_gdrive_id := some "fid",
    thumbnail_gdrive_url := some "furl", video_gdrive_id := none,
    video_gdrive_url := none, error_message := none,
    processing_completed_at := none, updated_at := some 500 }

/-- C5 (observed divergence): re-creating the existing slot
(1, 2025-01-21, 1) produces no duplicate row and the three update
operations change only the fields they mention — but the
merge-duplicates upsert of `create_upload_entry` silently resets the
already-received script and thumbnail statuses of the existing row back
to pending. -/
theorem c5_upsert_resets_statuses :
    (create_upload_entry 1 "2025-01-21" 1 [existingRow]).length = 1 ∧
    existingRow.script_status = "received" ∧
    existingRow.thumbnail_status = "received" ∧
    (create_upload_entry 1 "2025-01-21" 1 [existingRow])[0]? =
      some { existingRow with script_status := "pending",
                              thumbnail_status := "pending",
                              video_status := "pending",
                              audio_status := "pending" } ∧
    (update_script 1 "2025-01-21" 1 "new text" 600 [existingRow])[0]? =
      some { existingRow with script_text := some "new text",
                              script_status := "received",
                              script_received_at := some 600,
                              updated_at := some 600 } ∧
    (update_thumbnail 1 "2025-01-21" 1 "g2" "u2" 650 [existingRow])[0]? =
      some { existingRow with thumbnail_gdrive_id := some "g2",
                              thumbnail_gdrive_url := some "u2",
                              thumbnail_status := "received",
                              updated_at := some 650 } ∧
    (update_video_status 1 "2025-01-21" 1 "completed" none none none 700
      [existingRow])[0]? =
      some { existingRow with video_status := "completed",
                              updated_at := some 700,
                              processing_completed_at := some 700 } := by
  refine ⟨?_, ?_, ?_, ?_, ?_, ?_, ?_⟩ <;> decide

/-- Witness for C6: the scenario slot's pending script contributes its
labeled missing entry. -/
theorem c6_missing_items_per_slot_witness :
    ("V" ++ toString slotChannelX.video_number ++ " script") ∈
      missingOf slotChannelX ↔ slotChannelX.script_status = "pending" :=
  (c6_missing_items_per_slot.1 slotChannelX).1

/-- Witness for C10: overwriting the scenario slot's audio status does
not change its issue list. -/
theorem c10_incomplete_iff_and_audio_irrelevant_witness :
    issuesOf (setAudio "completed" slotChannelX) = issuesOf slotChannelX :=
  c10_incomplete_iff_and_audio_irrelevant.2.2 slotChannelX "completed"

/-- Witness for C8: the scenario sequence commits to
(2025-01-21, GYH, slot 3). -/
theorem c8_back_moves_one_step_witness :
    run_callbacks [] (fun _ => true)
      (some (start_state "script" (ContentData.scriptText "hi")))
      [CallbackData.date "2025-01-21", CallbackData.channel "BI",
       CallbackData.back_to_channel, CallbackData.channel "GYH",
       CallbackData.video 3] =
      (none, [⟨"script", ContentData.scriptText "hi", some "2025-01-21",
               some "GYH", some 3⟩]) :=
  c8_back_moves_one_step.2.2 [] (fun _ => true) "script"
    (ContentData.scriptText "hi")

end VideoOrch
